import Mathlib

/-! Image URL shareability checker (`backend/check-image-urls.mongodb.js`).

A shallow embedding of the analysis part of the MongoDB playground script:
the tally loop over `db.items.distinct("image_url")`, the sample display of
the first three distinct values, the GridFS `try`/`catch` section and the
final recommendation `if`/`else` chain.

Modelling conventions.

* A JavaScript string is a Lean `String`.  The values come out of BSON, whose
  strings are UTF-8, so they are sequences of Unicode scalar values; all the
  search patterns of the script are ASCII, hence searching by code point and
  searching by UTF-16 code unit find the same occurrences.
* Each call of `console.log` appends one entry to the console; the console is
  a `List String`, oldest entry first.
* An uncaught exception ends the script; an `Outcome` keeps the lines written
  up to that point together with the exception, if any.
-/

namespace CheckImageUrls

/-! ## JavaScript values and `String.prototype.includes` -/

/-- Exceptions the script can meet. -/
inductive JSError where
  | typeError (msg : String)
  | storeError (msg : String)
  deriving DecidableEq, Repr

/-- The values `distinct("image_url")` can hand back.  A `number` carries an
integer payload: the script only ever asks whether a number is truthy and
prints it, so fractions and `NaN` (falsy, like `0`) are left out; `object`
stands for a non-array BSON value without an `includes` member (a document,
a date, an ObjectId). -/
inductive JSVal where
  | undefined
  | null
  | bool (b : Bool)
  | number (n : Int)
  | str (s : String)
  | object
  deriving DecidableEq, Repr

/-- JavaScript `ToBoolean`. -/
def truthy : JSVal → Bool
  | .undefined => false
  | .null => false
  | .bool b => b
  | .number n => n != 0
  | .str s => s != ""
  | .object => true

/-- The test `typeof url === 'string'`. -/
def isString : JSVal → Bool
  | .str _ => true
  | _ => false

/-- JavaScript `ToString`, as a template literal applies it, for the values
of `JSVal`: an `object` is printed as a plain document is; a date or an
ObjectId, and a number from `1e21` on, are printed otherwise by the script,
which only alters the one console entry written before the `TypeError`. -/
def display : JSVal → String
  | .undefined => "undefined"
  | .null => "null"
  | .bool true => "true"
  | .bool false => "false"
  | .number n => toString n
  | .str s => s
  | .object => "[object Object]"

/-- Does `text` begin with `pat`? -/
def startsWith : List Char → List Char → Bool
  | _, [] => true
  | [], _ :: _ => false
  | c :: cs, p :: ps => c == p && startsWith cs ps

/-- ECMAScript `StringIndexOf(text, pat, 0)`: the least index at which `pat`
occurs in `text`, `none` for NOT-FOUND. -/
def stringIndexOf : List Char → List Char → Option Nat
  | [], pat => if startsWith [] pat then some 0 else none
  | c :: cs, pat =>
    if startsWith (c :: cs) pat then some 0
    else (stringIndexOf cs pat).map (· + 1)

/-- `s.includes(pat)` for strings. -/
def includes (s pat : String) : Bool :=
  (stringIndexOf s.data pat.data).isSome

/-- The call `url.includes(pat)` on a value of `JSVal`: only strings have the
member, on everything else the call is a `TypeError`.  (An array, which
`JSVal` leaves out, has `Array.prototype.includes` and would not throw.) -/
def callIncludes (url : JSVal) (pat : String) : Except JSError Bool :=
  match url with
  | .str s => .ok (includes s pat)
  | _ => .error (.typeError "url.includes is not a function")

/-- The substring relation the claims speak of: `pat` occurs somewhere in `s`. -/
def Contains (s pat : String) : Prop :=
  ∃ before after : List Char, s.data = before ++ pat.data ++ after


/-! ## Short-circuit connectives over calls that may throw -/

/-- Results of calls that may throw can be compared. -/
instance instDecidableEqExcept {ε α : Type} [DecidableEq ε] [DecidableEq α] :
    DecidableEq (Except ε α)
  | .ok a, .ok b => if h : a = b then isTrue (by rw [h]) else isFalse (fun h1 => h (by cases h1; rfl))
  | .error a, .error b =>
    if h : a = b then isTrue (by rw [h]) else isFalse (fun h1 => h (by cases h1; rfl))
  | .ok _, .error _ => isFalse (fun h => by cases h)
  | .error _, .ok _ => isFalse (fun h => by cases h)

/-- JavaScript `a || b`: `b` is evaluated only when `a` is false. -/
def orM (a b : Except JSError Bool) : Except JSError Bool :=
  a >>= fun x => if x then pure true else b

/-- JavaScript `a && b`: `b` is evaluated only when `a` is true. -/
def andM (a b : Except JSError Bool) : Except JSError Bool :=
  a >>= fun x => if x then b else pure false

/-- JavaScript `!a`. -/
def notM (a : Except JSError Bool) : Except JSError Bool :=
  a >>= fun x => pure (!x)

/-! ## Section 5 of the script: the tally loop -/

/-- The three counters `localhostCount`, `networkCount`, `globalCount`. -/
structure Counts where
  localhostCount : Nat
  networkCount : Nat
  globalCount : Nat
  deriving DecidableEq, Repr

/-- Body of `allImageUrls.forEach(url => ...)` in the URL analysis. -/
def tallyStep (c : Counts) (url : JSVal) : Except JSError Counts :=
  if truthy url && isString url then
    orM (callIncludes url "localhost") (callIncludes url "127.0.0.1") >>= fun isLocalhost =>
    if isLocalhost then
      pure ⟨c.localhostCount + 1, c.networkCount, c.globalCount⟩
    else
      orM (orM (callIncludes url "192.168.") (callIncludes url "10.0."))
          (callIncludes url "172.") >>= fun isNetwork =>
      if isNetwork then
        pure ⟨c.localhostCount, c.networkCount + 1, c.globalCount⟩
      else
        andM (andM (callIncludes url "https://") (notM (callIncludes url "192.168.")))
             (notM (callIncludes url "localhost")) >>= fun isGlobal =>
        if isGlobal then
          pure ⟨c.localhostCount, c.networkCount, c.globalCount + 1⟩
        else
          pure c
  else
    pure c

/-- The loop `allImageUrls.forEach(...)`, run from the given counters. -/
def tallyFrom : Counts → List JSVal → Except JSError Counts
  | c, [] => pure c
  | c, url :: rest => tallyStep c url >>= fun c1 => tallyFrom c1 rest

/-- The tally loop with the three counters initialised to `0`. -/
def tallyLoop (allImageUrls : List JSVal) : Except JSError Counts :=
  tallyFrom ⟨0, 0, 0⟩ allImageUrls

/-- Lines printed after the tally loop. -/
def analysisSummary (c : Counts) : List String :=
  [ "URL Shareability Analysis:",
    "❌ Localhost URLs (not shareable): " ++ toString c.localhostCount,
    "⚠️  Local network URLs (WiFi network only): " ++ toString c.networkCount,
    "✅ Global URLs (internet accessible): " ++ toString c.globalCount,
    "",
    "📖 URL Shareability Guide:",
    "• Localhost (127.0.0.1, localhost) = Only your computer",
    "• Local Network (192.168.x.x) = Same WiFi network",
    "• Global (https://domain.com) = Anywhere on internet" ]

/-! ## The sample display of the first three distinct values -/

/-- Console lines written so far and the uncaught exception, if any. -/
structure Outcome where
  out : List String
  err : Option JSError
  deriving DecidableEq, Repr

def localhostStatus : List String :=
  [ "   Status: ❌ Not shareable (localhost only)",
    "   📱 Can access: Only your computer" ]

def networkStatus : List String :=
  [ "   Status: ⚠️  Local network only",
    "   📱 Can access: Devices on same WiFi network" ]

def globalStatus : List String :=
  [ "   Status: ✅ Globally shareable",
    "   📱 Can access: Anyone with internet connection" ]

def unknownStatus : List String :=
  [ "   Status: ❓ Unknown pattern",
    "   📱 Can access: Uncertain - please check manually" ]

/-- The `if`/`else if` chain of the sample display: the two status lines it
prints, or the exception it throws. -/
def sampleStatus (url : JSVal) : Except JSError (List String) :=
  orM (callIncludes url "localhost") (callIncludes url "127.0.0.1") >>= fun isLocalhost =>
  if isLocalhost then
    pure localhostStatus
  else
    orM (orM (callIncludes url "192.168.") (callIncludes url "10.0."))
        (callIncludes url "172.") >>= fun isNetwork =>
    if isNetwork then
      pure networkStatus
    else
      andM (andM (callIncludes url "https://") (notM (callIncludes url "192.168.")))
           (notM (callIncludes url "localhost")) >>= fun isGlobal =>
      if isGlobal then
        pure globalStatus
      else
        pure unknownStatus

/-- Body of `allImageUrls.slice(0, 3).forEach((url, index) => ...)`. -/
def sampleEntry (index : Nat) (url : JSVal) : Outcome :=
  if truthy url then
    let numbered := toString (index + 1) ++ ". " ++ display url
    match sampleStatus url with
    | .ok status => ⟨[numbered] ++ status ++ [""], none⟩
    | .error e => ⟨[numbered], some e⟩
  else
    ⟨[], none⟩

/-- The sample loop from a given index: it stops at the first exception. -/
def sampleFrom : Nat → List JSVal → Outcome
  | _, [] => ⟨[], none⟩
  | index, url :: rest =>
    match sampleEntry index url with
    | ⟨out, some e⟩ => ⟨out, some e⟩
    | ⟨out, none⟩ =>
      let later := sampleFrom (index + 1) rest
      ⟨out ++ later.out, later.err⟩

/-- The loop over `allImageUrls.slice(0, 3)`. -/
def sampleDisplay (allImageUrls : List JSVal) : Outcome :=
  sampleFrom 0 (allImageUrls.take 3)

/-! ## Section 6 of the script: GridFS -/

/-- A document of `db.fs.files` as the sample prints it. -/
structure FileDoc where
  filename : String
  uploadDate : String
  deriving DecidableEq, Repr

/-- What the secondary collection `db.fs.files` answers: the result of
`countDocuments()`, and for the iteration of `find(...).limit(3)` the documents
handed to the callback followed by the exception that ended the iteration, if
one did. -/
structure FsFiles where
  countDocuments : Except JSError Nat
  sampleDocs : List FileDoc
  sampleError : Option JSError

/-- The body of the `try` block: the lines it writes and the exception that
leaves it, if any. -/
def gridfsTry (fs : FsFiles) : Outcome :=
  match fs.countDocuments with
  | .error e => ⟨[], some e⟩
  | .ok gridFSFiles =>
    let stored := "GridFS files stored: " ++ toString gridFSFiles
    if gridFSFiles > 0 then
      ⟨[stored, "Sample GridFS files:"] ++
        (fs.sampleDocs.take 3).map
          (fun file => "- " ++ file.filename ++ " (" ++ file.uploadDate ++ ")"),
       fs.sampleError⟩
    else
      ⟨[stored], none⟩

/-- The whole section: header, `try` block, and the `catch (e)` handler that
takes every exception. -/
def gridfsSection (fs : FsFiles) : List String :=
  ["\n=== GRIDFS INFO ==="] ++
    (match gridfsTry fs with
     | ⟨out, some _⟩ => out ++ ["GridFS not found or no files"]
     | ⟨out, none⟩ => out)

/-! ## Section 7 of the script: recommendations -/

/-- The four branches of the final `if`/`else if` chain. -/
inductive Recommendation where
  | localNetworkOnly
  | globallyShareable
  | localhostOnly
  | noImageUrls
  deriving DecidableEq, Repr

/-- Which branch of the chain `if (globalCount === 0 && networkCount > 0) ...`
is taken. -/
def recommend (c : Counts) : Recommendation :=
  if c.globalCount = 0 ∧ c.networkCount > 0 then .localNetworkOnly
  else if c.globalCount > 0 then .globallyShareable
  else if c.localhostCount > 0 then .localhostOnly
  else .noImageUrls

/-- The lines each branch prints. -/
def recommendationLines : Recommendation → List String
  | .localNetworkOnly =>
    [ "� STATUS: Local Network URLs Detected",
      "🏠 Your images are accessible within your local network only",
      "",
      "🚀 TO MAKE GLOBALLY SHAREABLE:",
      "1. Deploy to cloud platform:",
      "   • Railway: https://railway.app",
      "   • Render: https://render.com",
      "   • Heroku: https://heroku.com",
      "",
      "2. Set up MongoDB Atlas (cloud database):",
      "   • Visit: https://mongodb.com/atlas",
      "   • Create free cluster",
      "",
      "3. Update environment variables:",
      "   • MONGO_URL=mongodb+srv://...",
      "   • BASE_URL=https://your-app.railway.app",
      "",
      "📖 See DEPLOYMENT.md for detailed instructions" ]
  | .globallyShareable =>
    [ "🎉 EXCELLENT! You have globally shareable URLs",
      "✅ Your images can be accessed from anywhere on the internet" ]
  | .localhostOnly =>
    [ "⚠️  WARNING: Localhost URLs detected",
      "❌ These URLs only work on your computer",
      "🔧 Update BASE_URL in your environment to use network IP or deploy to cloud" ]
  | .noImageUrls =>
    [ "❓ No image URLs found. Try uploading some items with images first.",
      "💡 Make sure your Lost and Found app is running and you've reported items with photos" ]

/-- The recommendations section for the counters left by the tally loop. -/
def recommendationSection (c : Counts) : List String :=
  ["\n=== RECOMMENDATIONS ===", "Current Analysis Results:"] ++
    recommendationLines (recommend c)

/-! ## The run, from the URL analysis to the end of the script -/

/-- What the script reads from the database for the parts modelled here. -/
structure Store where
  allImageUrls : List JSVal
  fsFiles : FsFiles

/-- The script from the GridFS section to its end. -/
def fromGridfs (fs : FsFiles) (c : Counts) : List String :=
  gridfsSection fs ++ recommendationSection c

/-- The script from `=== IMAGE URL ANALYSIS ===` to its end.  An exception
outside the `try` block is uncaught and ends the run where it is thrown. -/
def analysis (st : Store) : Outcome :=
  let opening :=
    [ "\n=== IMAGE URL ANALYSIS ===",
      "Total unique image URLs: " ++ toString st.allImageUrls.length ]
  match tallyLoop st.allImageUrls with
  | .error e => ⟨opening, some e⟩
  | .ok c =>
    let shown := sampleDisplay st.allImageUrls
    let upToSamples := opening ++ analysisSummary c ++ ["\n=== SAMPLE IMAGE URLS ==="] ++ shown.out
    match shown.err with
    | some e => ⟨upToSamples, some e⟩
    | none => ⟨upToSamples ++ fromGridfs st.fsFiles c, none⟩

/-- The secondary collection with no file in it. -/
def noFiles : FsFiles := ⟨.ok 0, [], none⟩

/-- A query of the GridFS section raises: the count does, or the count is
positive and reading the sample does. -/
def QueryRaises (fs : FsFiles) : Prop :=
  (∃ e, fs.countDocuments = .error e) ∨
  (∃ n e, fs.countDocuments = .ok n ∧ 0 < n ∧ fs.sampleError = some e)

/-! ## The specification side -/

/-- The four tags of section 3 of the specification. -/
inductive Classification where
  | loopback
  | privateNetwork
  | global
  | unknown
  deriving DecidableEq, Repr

/-- The classifier of section 4.1 of the specification, in its words: ordered,
first match wins, the third step testing `"https://"` alone. -/
def specClassify (s : String) : Classification :=
  if includes s "localhost" || includes s "127.0.0.1" then .loopback
  else if includes s "192.168." || includes s "10.0." || includes s "172." then .privateNetwork
  else if includes s "https://" then .global
  else .unknown

/-- The counter a classification adds to; `unknown` adds to none. -/
def bump (c : Counts) : Classification → Counts
  | .loopback => ⟨c.localhostCount + 1, c.networkCount, c.globalCount⟩
  | .privateNetwork => ⟨c.localhostCount, c.networkCount + 1, c.globalCount⟩
  | .global => ⟨c.localhostCount, c.networkCount, c.globalCount + 1⟩
  | .unknown => c

/-- The status lines the sample display has for a classification. -/
def statusLines : Classification → List String
  | .loopback => localhostStatus
  | .privateNetwork => networkStatus
  | .global => globalStatus
  | .unknown => unknownStatus

/-- The entries of the list that are non-empty strings. -/
def stringEntries : List JSVal → List String
  | [] => []
  | .str s :: rest => if s = "" then stringEntries rest else s :: stringEntries rest
  | _ :: rest => stringEntries rest

/-- How many non-empty string entries the specification's classifier gives
the tag `k`. -/
def tagged (k : Classification) (urls : List JSVal) : Nat :=
  (stringEntries urls).countP (fun s => specClassify s = k)

/-- The tally body with the third test reduced to `includes("https://")`. -/
def tallyStepPlain (c : Counts) (url : JSVal) : Except JSError Counts :=
  if truthy url && isString url then
    orM (callIncludes url "localhost") (callIncludes url "127.0.0.1") >>= fun isLocalhost =>
    if isLocalhost then
      pure ⟨c.localhostCount + 1, c.networkCount, c.globalCount⟩
    else
      orM (orM (callIncludes url "192.168.") (callIncludes url "10.0."))
          (callIncludes url "172.") >>= fun isNetwork =>
      if isNetwork then
        pure ⟨c.localhostCount, c.networkCount + 1, c.globalCount⟩
      else
        callIncludes url "https://" >>= fun isGlobal =>
        if isGlobal then
          pure ⟨c.localhostCount, c.networkCount, c.globalCount + 1⟩
        else
          pure c
  else
    pure c

/-- The sample display's chain with the third test reduced to
`includes("https://")`. -/
def sampleStatusPlain (url : JSVal) : Except JSError (List String) :=
  orM (callIncludes url "localhost") (callIncludes url "127.0.0.1") >>= fun isLocalhost =>
  if isLocalhost then
    pure localhostStatus
  else
    orM (orM (callIncludes url "192.168.") (callIncludes url "10.0."))
        (callIncludes url "172.") >>= fun isNetwork =>
    if isNetwork then
      pure networkStatus
    else
      callIncludes url "https://" >>= fun isGlobal =>
      if isGlobal then
        pure globalStatus
      else
        pure unknownStatus

/-- A cell of the decision table of section 4.2: `0`, `>0` or `any`. -/
inductive Cell where
  | zero
  | positive
  | any
  deriving DecidableEq, Repr

/-- Does a count fit a cell? -/
def Cell.admits : Cell → Nat → Bool
  | .zero, n => n == 0
  | .positive, n => 0 < n
  | .any, _ => true

/-- A row of the decision table. -/
structure Row where
  globalCell : Cell
  networkCell : Cell
  loopbackCell : Cell
  advice : Recommendation
  deriving DecidableEq, Repr

/-- The decision table of section 4.2 of the specification, top to bottom. -/
def decisionTable : List Row :=
  [ ⟨.zero, .positive, .any, .localNetworkOnly⟩,
    ⟨.positive, .any, .any, .globallyShareable⟩,
    ⟨.zero, .zero, .positive, .localhostOnly⟩,
    ⟨.zero, .zero, .zero, .noImageUrls⟩ ]

/-- Does the row match the counts (Global `g`, PrivateNetwork `p`, Loopback `l`)? -/
def Row.admits (r : Row) (g p l : Nat) : Bool :=
  r.globalCell.admits g && r.networkCell.admits p && r.loopbackCell.admits l

/-- The advice of the first matching row. -/
def firstMatchingRow (g p l : Nat) : Option Recommendation :=
  (decisionTable.find? (fun r => r.admits g p l)).map (fun r => r.advice)

/-! ## `includes` is the substring relation -/

theorem startsWith_iff (text pat : List Char) :
    startsWith text pat = true ↔ ∃ after, text = pat ++ after := by
  induction pat generalizing text with
  | nil => simp [startsWith]
  | cons p ps ih =>
    cases text with
    | nil => simp [startsWith]
    | cons c cs =>
      simp only [startsWith, Bool.and_eq_true, beq_iff_eq, ih, List.cons_append, List.cons.injEq]
      constructor
      · rintro ⟨rfl, after, rfl⟩
        exact ⟨after, rfl, rfl⟩
      · rintro ⟨after, rfl, rfl⟩
        exact ⟨rfl, after, rfl⟩

theorem stringIndexOf_isSome_iff (text pat : List Char) :
    (stringIndexOf text pat).isSome = true ↔
      ∃ before after, text = before ++ pat ++ after := by
  induction text with
  | nil =>
    cases pat with
    | nil => simp [stringIndexOf, startsWith]
    | cons p ps => simp [stringIndexOf, startsWith]
  | cons c cs ih =>
    unfold stringIndexOf
    by_cases h : startsWith (c :: cs) pat = true
    · simp only [h, if_true, Option.isSome_some, true_iff]
      obtain ⟨after, ha⟩ := (startsWith_iff _ _).mp h
      exact ⟨[], after, by simpa using ha⟩
    · have hmap : ((stringIndexOf cs pat).map (· + 1)).isSome = (stringIndexOf cs pat).isSome := by
        cases stringIndexOf cs pat <;> rfl
      rw [if_neg h, hmap, ih]
      constructor
      · rintro ⟨before, after, rfl⟩
        exact ⟨c :: before, after, by simp⟩
      · rintro ⟨before, after, hb⟩
        cases before with
        | nil =>
          exact absurd ((startsWith_iff _ _).mpr ⟨after, by simpa using hb⟩) h
        | cons b bs =>
          simp only [List.cons_append, List.cons.injEq] at hb
          exact ⟨bs, after, hb.2⟩

theorem includes_iff (s pat : String) : includes s pat = true ↔ Contains s pat :=
  stringIndexOf_isSome_iff s.data pat.data

theorem includes_eq_false_iff (s pat : String) : includes s pat = false ↔ ¬ Contains s pat := by
  rw [← includes_iff]; simp

instance instDecidableContains (s pat : String) : Decidable (Contains s pat) :=
  decidable_of_iff _ (includes_iff s pat)

/-! ## The two copies of the chain, on strings and on other values -/

theorem contains_ne_empty (s pat : String) (hp : pat ≠ "") (h : Contains s pat) : s ≠ "" := by
  rintro rfl
  obtain ⟨before, after, hba⟩ := h
  have hnil : pat.data = [] := by
    have h0 : ([] : List Char) = before ++ pat.data ++ after := hba
    have h1 := congrArg List.length h0
    simp only [List.length_nil, List.length_append] at h1
    exact List.length_eq_zero.mp (by omega)
  exact hp (String.ext hnil)

theorem tallyStep_str (c : Counts) (s : String) (h : s ≠ "") :
    tallyStep c (.str s) = .ok (bump c (specClassify s)) := by
  have ht : (truthy (.str s) && isString (.str s)) = true := by simp [truthy, isString, h]
  unfold tallyStep specClassify
  rw [if_pos ht]
  simp only [callIncludes, orM, andM, notM]
  cases includes s "localhost" <;> cases includes s "127.0.0.1" <;>
    cases includes s "192.168." <;> cases includes s "10.0." <;>
    cases includes s "172." <;> cases includes s "https://" <;> rfl

theorem tallyStep_skip (c : Counts) (url : JSVal)
    (h : (truthy url && isString url) = false) : tallyStep c url = .ok c := by
  unfold tallyStep
  rw [h]
  rfl

theorem tallyStep_nonString (c : Counts) (url : JSVal) (h : isString url = false) :
    tallyStep c url = .ok c :=
  tallyStep_skip c url (by simp [h])

theorem sampleStatus_str (s : String) :
    sampleStatus (.str s) = .ok (statusLines (specClassify s)) := by
  unfold sampleStatus specClassify
  simp only [callIncludes, orM, andM, notM]
  cases includes s "localhost" <;> cases includes s "127.0.0.1" <;>
    cases includes s "192.168." <;> cases includes s "10.0." <;>
    cases includes s "172." <;> cases includes s "https://" <;> rfl

theorem sampleStatus_nonString (url : JSVal) (h : isString url = false) :
    sampleStatus url = .error (.typeError "url.includes is not a function") := by
  cases url <;> first | rfl | simp [isString] at h

theorem sampleEntry_str (index : Nat) (s : String) (h : s ≠ "") :
    sampleEntry index (.str s) =
      ⟨[toString (index + 1) ++ ". " ++ s] ++ statusLines (specClassify s) ++ [""], none⟩ := by
  have ht : truthy (.str s) = true := by simp [truthy, h]
  unfold sampleEntry
  rw [if_pos ht, sampleStatus_str]
  rfl

theorem specClassify_loopback (s : String)
    (h : Contains s "localhost" ∨ Contains s "127.0.0.1") : specClassify s = .loopback := by
  have hb : (includes s "localhost" || includes s "127.0.0.1") = true := by
    rcases h with h | h
    · simp [(includes_iff _ _).mpr h]
    · simp [(includes_iff _ _).mpr h]
  unfold specClassify
  rw [if_pos hb]

theorem specClassify_privateNetwork (s : String)
    (hnet : Contains s "192.168." ∨ Contains s "10.0." ∨ Contains s "172.")
    (h1 : ¬ Contains s "localhost") (h2 : ¬ Contains s "127.0.0.1") :
    specClassify s = .privateNetwork := by
  have ha : (includes s "localhost" || includes s "127.0.0.1") = false := by
    simp [(includes_eq_false_iff _ _).mpr h1, (includes_eq_false_iff _ _).mpr h2]
  have hb : (includes s "192.168." || includes s "10.0." || includes s "172.") = true := by
    rcases hnet with h | h | h
    · simp [(includes_iff _ _).mpr h]
    · simp [(includes_iff _ _).mpr h]
    · simp [(includes_iff _ _).mpr h]
  unfold specClassify
  rw [ha, hb]
  rfl

theorem specClassify_global (s : String) (hs : Contains s "https://")
    (h1 : ¬ Contains s "localhost") (h2 : ¬ Contains s "127.0.0.1")
    (h3 : ¬ Contains s "192.168.") (h4 : ¬ Contains s "10.0.") (h5 : ¬ Contains s "172.") :
    specClassify s = .global := by
  have ha : (includes s "localhost" || includes s "127.0.0.1") = false := by
    simp [(includes_eq_false_iff _ _).mpr h1, (includes_eq_false_iff _ _).mpr h2]
  have hb : (includes s "192.168." || includes s "10.0." || includes s "172.") = false := by
    simp [(includes_eq_false_iff _ _).mpr h3, (includes_eq_false_iff _ _).mpr h4,
      (includes_eq_false_iff _ _).mpr h5]
  unfold specClassify
  rw [ha, hb, (includes_iff _ _).mpr hs]
  rfl

theorem specClassify_unknown_iff (s : String) :
    specClassify s = .unknown ↔
      (¬ Contains s "localhost" ∧ ¬ Contains s "127.0.0.1" ∧ ¬ Contains s "192.168." ∧
        ¬ Contains s "10.0." ∧ ¬ Contains s "172." ∧ ¬ Contains s "https://") := by
  simp only [← includes_eq_false_iff]
  unfold specClassify
  cases includes s "localhost" <;> cases includes s "127.0.0.1" <;>
    cases includes s "192.168." <;> cases includes s "10.0." <;>
    cases includes s "172." <;> cases includes s "https://" <;> simp

/-! ## The classification chain, claim by claim -/

/-- C1: a string containing `"localhost"` or `"127.0.0.1"` is Loopback in both
copies of the chain, whatever else it contains: the tally loop adds one to
`localhostCount` and to nothing else, and the sample display prints the
localhost-only status. -/
theorem localhost_marker_is_loopback (s : String)
    (h : Contains s "localhost" ∨ Contains s "127.0.0.1") :
    (∀ c : Counts, tallyStep c (.str s) =
        .ok ⟨c.localhostCount + 1, c.networkCount, c.globalCount⟩) ∧
    (∀ index : Nat, sampleEntry index (.str s) =
        ⟨[ toString (index + 1) ++ ". " ++ s,
           "   Status: ❌ Not shareable (localhost only)",
           "   📱 Can access: Only your computer",
           "" ], none⟩) := by
  have hne : s ≠ "" := by
    rcases h with h | h
    · exact contains_ne_empty s _ (by decide) h
    · exact contains_ne_empty s _ (by decide) h
  have hk := specClassify_loopback s h
  constructor
  · intro c
    rw [tallyStep_str c s hne, hk]
    rfl
  · intro index
    rw [sampleEntry_str index s hne, hk]
    rfl

theorem localhost_marker_is_loopback_witness :
    (Contains "http://localhost:8080/192.168.1.1/img.png" "localhost" ∧
      Contains "http://localhost:8080/192.168.1.1/img.png" "192.168.") ∧
    tallyStep ⟨0, 0, 0⟩ (.str "http://localhost:8080/192.168.1.1/img.png") = .ok ⟨1, 0, 0⟩ ∧
    sampleEntry 0 (.str "http://localhost:8080/192.168.1.1/img.png") =
      ⟨[ "1. http://localhost:8080/192.168.1.1/img.png",
         "   Status: ❌ Not shareable (localhost only)",
         "   📱 Can access: Only your computer",
         "" ], none⟩ :=
  ⟨⟨by decide, by decide⟩,
   (localhost_marker_is_loopback "http://localhost:8080/192.168.1.1/img.png"
      (Or.inl (by decide))).1 ⟨0, 0, 0⟩,
   (localhost_marker_is_loopback "http://localhost:8080/192.168.1.1/img.png"
      (Or.inl (by decide))).2 0⟩

/-- C2: a string containing `"192.168."`, `"10.0."` or `"172."` and neither
loopback marker is PrivateNetwork in both copies of the chain: the tally loop
adds one to `networkCount` only and the sample display prints the
local-network status.  Nothing is asked of `"https://"` nor of where `"172."`
stands in the string. -/
theorem network_marker_is_private (s : String)
    (hnet : Contains s "192.168." ∨ Contains s "10.0." ∨ Contains s "172.")
    (h1 : ¬ Contains s "localhost") (h2 : ¬ Contains s "127.0.0.1") :
    (∀ c : Counts, tallyStep c (.str s) =
        .ok ⟨c.localhostCount, c.networkCount + 1, c.globalCount⟩) ∧
    (∀ index : Nat, sampleEntry index (.str s) =
        ⟨[ toString (index + 1) ++ ". " ++ s,
           "   Status: ⚠️  Local network only",
           "   📱 Can access: Devices on same WiFi network",
           "" ], none⟩) := by
  have hne : s ≠ "" := by
    rcases hnet with h | h | h
    · exact contains_ne_empty s _ (by decide) h
    · exact contains_ne_empty s _ (by decide) h
    · exact contains_ne_empty s _ (by decide) h
  have hk := specClassify_privateNetwork s hnet h1 h2
  constructor
  · intro c
    rw [tallyStep_str c s hne, hk]
    rfl
  · intro index
    rw [sampleEntry_str index s hne, hk]
    rfl

theorem network_marker_is_private_witness :
    (Contains "http://192.168.1.5:3000/img.png" "192.168." ∧
      tallyStep ⟨0, 0, 0⟩ (.str "http://192.168.1.5:3000/img.png") = .ok ⟨0, 1, 0⟩) ∧
    (Contains "https://cdn.example.com/v172.5/img.png" "172." ∧
      Contains "https://cdn.example.com/v172.5/img.png" "https://" ∧
      tallyStep ⟨0, 0, 0⟩ (.str "https://cdn.example.com/v172.5/img.png") = .ok ⟨0, 1, 0⟩ ∧
      sampleEntry 1 (.str "https://cdn.example.com/v172.5/img.png") =
        ⟨[ "2. https://cdn.example.com/v172.5/img.png",
           "   Status: ⚠️  Local network only",
           "   📱 Can access: Devices on same WiFi network",
           "" ], none⟩) :=
  ⟨⟨by decide,
    (network_marker_is_private "http://192.168.1.5:3000/img.png"
      (Or.inl (by decide)) (by decide) (by decide)).1 ⟨0, 0, 0⟩⟩,
   by decide, by decide,
   (network_marker_is_private "https://cdn.example.com/v172.5/img.png"
      (Or.inr (Or.inr (by decide))) (by decide) (by decide)).1 ⟨0, 0, 0⟩,
   (network_marker_is_private "https://cdn.example.com/v172.5/img.png"
      (Or.inr (Or.inr (by decide))) (by decide) (by decide)).2 1⟩

/-- C3: a string containing `"https://"` and none of `"localhost"`,
`"127.0.0.1"`, `"192.168."`, `"10.0."`, `"172."` is Global in both copies of
the chain: the tally loop adds one to `globalCount` only and the sample
display prints the globally-shareable status. -/
theorem https_without_markers_is_global (s : String) (hs : Contains s "https://")
    (h1 : ¬ Contains s "localhost") (h2 : ¬ Contains s "127.0.0.1")
    (h3 : ¬ Contains s "192.168.") (h4 : ¬ Contains s "10.0.") (h5 : ¬ Contains s "172.") :
    (∀ c : Counts, tallyStep c (.str s) =
        .ok ⟨c.localhostCount, c.networkCount, c.globalCount + 1⟩) ∧
    (∀ index : Nat, sampleEntry index (.str s) =
        ⟨[ toString (index + 1) ++ ". " ++ s,
           "   Status: ✅ Globally shareable",
           "   📱 Can access: Anyone with internet connection",
           "" ], none⟩) := by
  have hne : s ≠ "" := contains_ne_empty s _ (by decide) hs
  have hk := specClassify_global s hs h1 h2 h3 h4 h5
  constructor
  · intro c
    rw [tallyStep_str c s hne, hk]
    rfl
  · intro index
    rw [sampleEntry_str index s hne, hk]
    rfl

theorem https_without_markers_is_global_witness :
    Contains "https://cdn.example.com/img.png" "https://" ∧
    tallyStep ⟨0, 0, 0⟩ (.str "https://cdn.example.com/img.png") = .ok ⟨0, 0, 1⟩ ∧
    sampleEntry 0 (.str "https://cdn.example.com/img.png") =
      ⟨[ "1. https://cdn.example.com/img.png",
         "   Status: ✅ Globally shareable",
         "   📱 Can access: Anyone with internet connection",
         "" ], none⟩ :=
  ⟨by decide,
   (https_without_markers_is_global "https://cdn.example.com/img.png" (by decide) (by decide)
      (by decide) (by decide) (by decide) (by decide)).1 ⟨0, 0, 0⟩,
   (https_without_markers_is_global "https://cdn.example.com/img.png" (by decide) (by decide)
      (by decide) (by decide) (by decide) (by decide)).2 0⟩

/-- C4: a non-empty string containing none of the six markers is Unknown: the
tally loop leaves the three counters as they are and the sample display prints
the unknown-pattern status. -/
theorem no_marker_is_unknown (s : String) (hne : s ≠ "")
    (h1 : ¬ Contains s "localhost") (h2 : ¬ Contains s "127.0.0.1")
    (h3 : ¬ Contains s "192.168.") (h4 : ¬ Contains s "10.0.") (h5 : ¬ Contains s "172.")
    (h6 : ¬ Contains s "https://") :
    (∀ c : Counts, tallyStep c (.str s) = .ok c) ∧
    (∀ index : Nat, sampleEntry index (.str s) =
        ⟨[ toString (index + 1) ++ ". " ++ s,
           "   Status: ❓ Unknown pattern",
           "   📱 Can access: Uncertain - please check manually",
           "" ], none⟩) := by
  have hk := (specClassify_unknown_iff s).mpr ⟨h1, h2, h3, h4, h5, h6⟩
  constructor
  · intro c
    rw [tallyStep_str c s hne, hk]
    rfl
  · intro index
    rw [sampleEntry_str index s hne, hk]
    rfl

theorem no_marker_is_unknown_witness :
    "ftp://files.example.com/img.png" ≠ "" ∧
    tallyStep ⟨0, 0, 0⟩ (.str "ftp://files.example.com/img.png") = .ok ⟨0, 0, 0⟩ ∧
    sampleEntry 0 (.str "ftp://files.example.com/img.png") =
      ⟨[ "1. ftp://files.example.com/img.png",
         "   Status: ❓ Unknown pattern",
         "   📱 Can access: Uncertain - please check manually",
         "" ], none⟩ :=
  ⟨by decide,
   (no_marker_is_unknown "ftp://files.example.com/img.png" (by decide) (by decide) (by decide)
      (by decide) (by decide) (by decide) (by decide)).1 ⟨0, 0, 0⟩,
   (no_marker_is_unknown "ftp://files.example.com/img.png" (by decide) (by decide) (by decide)
      (by decide) (by decide) (by decide) (by decide)).2 0⟩

/-- C9: the extra guard of the third branch is redundant.  For every value and
every state of the counters the tally body as written gives what the body
testing `includes("https://")` alone gives, and the chain of the sample display
as written gives what the chain testing `includes("https://")` alone gives
(the same status lines, or the same exception). -/
theorem global_guard_is_redundant (url : JSVal) :
    (∀ c : Counts, tallyStep c url = tallyStepPlain c url) ∧
    sampleStatus url = sampleStatusPlain url := by
  cases url with
  | str s =>
    constructor
    · intro c
      unfold tallyStep tallyStepPlain
      simp only [callIncludes, orM, andM, notM]
      cases (truthy (.str s) && isString (.str s)) <;>
        cases includes s "localhost" <;> cases includes s "127.0.0.1" <;>
        cases includes s "192.168." <;> cases includes s "10.0." <;>
        cases includes s "172." <;> cases includes s "https://" <;> rfl
    · unfold sampleStatus sampleStatusPlain
      simp only [callIncludes, orM, andM, notM]
      cases includes s "localhost" <;> cases includes s "127.0.0.1" <;>
        cases includes s "192.168." <;> cases includes s "10.0." <;>
        cases includes s "172." <;> cases includes s "https://" <;> rfl
  | undefined => exact ⟨fun _ => rfl, rfl⟩
  | null => exact ⟨fun _ => rfl, rfl⟩
  | bool b => exact ⟨fun _ => by cases b <;> rfl, rfl⟩
  | number n => exact ⟨fun _ => by unfold tallyStep tallyStepPlain; simp [isString], rfl⟩
  | object => exact ⟨fun _ => rfl, rfl⟩

/-! ## The recommendation chain and the decision table -/

/-- C5: for all counts (Global `g`, PrivateNetwork `p`, Loopback `l`) the branch
the script takes is the advice of the first matching row of the decision
table; read row by row: `g = 0` and `p > 0` gives the local-network advice,
`g > 0` the globally-shareable one, `g = 0`, `p = 0`, `l > 0` the
localhost-only one, `g = p = l = 0` the no-image-URLs one; and exactly one
row of the table matches each triple. -/
theorem recommendation_follows_table (g p l : Nat) :
    firstMatchingRow g p l = some (recommend ⟨l, p, g⟩) ∧
    (g = 0 ∧ 0 < p → recommend ⟨l, p, g⟩ = .localNetworkOnly) ∧
    (0 < g → recommend ⟨l, p, g⟩ = .globallyShareable) ∧
    (g = 0 ∧ p = 0 ∧ 0 < l → recommend ⟨l, p, g⟩ = .localhostOnly) ∧
    (g = 0 ∧ p = 0 ∧ l = 0 → recommend ⟨l, p, g⟩ = .noImageUrls) ∧
    (decisionTable.filter (fun r => r.admits g p l)).length = 1 := by
  cases g <;> cases p <;> cases l <;>
    simp [firstMatchingRow, decisionTable, Row.admits, Cell.admits, recommend]

theorem recommendation_follows_table_witness :
    tallyLoop [.str "http://192.168.1.2/2.png"] = .ok ⟨0, 1, 0⟩ ∧
    firstMatchingRow 0 1 0 = some .localNetworkOnly ∧
    recommend ⟨0, 1, 0⟩ = .localNetworkOnly :=
  ⟨by decide, (recommendation_follows_table 0 1 0).1.trans (by decide),
   (recommendation_follows_table 0 1 0).2.1 ⟨rfl, by decide⟩⟩

/-! ## The tally loop as a whole -/

theorem mem_stringEntries (s : String) (urls : List JSVal) :
    s ∈ stringEntries urls ↔ JSVal.str s ∈ urls ∧ s ≠ "" := by
  induction urls with
  | nil => simp [stringEntries]
  | cons u rest ih =>
    cases u with
    | str t =>
      by_cases ht : t = ""
      · subst ht
        simp only [stringEntries, if_true, ih, List.mem_cons, JSVal.str.injEq]
        constructor
        · rintro ⟨h1, h2⟩
          exact ⟨Or.inr h1, h2⟩
        · rintro ⟨h1 | h1, h2⟩
          · exact absurd h1 h2
          · exact ⟨h1, h2⟩
      · simp only [stringEntries, if_neg ht, List.mem_cons, ih, JSVal.str.injEq]
        constructor
        · rintro (h | ⟨h1, h2⟩)
          · exact ⟨Or.inl h, h ▸ ht⟩
          · exact ⟨Or.inr h1, h2⟩
        · rintro ⟨h1 | h1, h2⟩
          · exact Or.inl h1
          · exact Or.inr ⟨h1, h2⟩
    | undefined => simpa [stringEntries] using ih
    | null => simpa [stringEntries] using ih
    | bool b => simpa [stringEntries] using ih
    | number n => simpa [stringEntries] using ih
    | object => simpa [stringEntries] using ih

theorem tagged_cons_skip (k : Classification) (u : JSVal) (rest : List JSVal)
    (h : (truthy u && isString u) = false) : tagged k (u :: rest) = tagged k rest := by
  cases u with
  | str t =>
    have ht : t = "" := by simpa [truthy, isString] using h
    subst ht
    simp [tagged, stringEntries]
  | undefined => rfl
  | null => rfl
  | bool b => rfl
  | number n => rfl
  | object => rfl

theorem tagged_cons_str (k : Classification) (s : String) (rest : List JSVal) (h : s ≠ "") :
    tagged k (.str s :: rest) = tagged k rest + (if specClassify s = k then 1 else 0) := by
  simp [tagged, stringEntries, h, List.countP_cons]

theorem tallyFrom_eq (urls : List JSVal) (c : Counts) :
    tallyFrom c urls =
      .ok ⟨c.localhostCount + tagged .loopback urls,
           c.networkCount + tagged .privateNetwork urls,
           c.globalCount + tagged .global urls⟩ := by
  induction urls generalizing c with
  | nil => rfl
  | cons u rest ih =>
    by_cases hu : (truthy u && isString u) = true
    · cases u with
      | str s =>
        have hs : s ≠ "" := by simpa [truthy, isString] using hu
        have hstep : tallyFrom c (.str s :: rest) = tallyFrom (bump c (specClassify s)) rest := by
          show (tallyStep c (.str s) >>= fun c1 => tallyFrom c1 rest) = _
          rw [tallyStep_str c s hs]
          rfl
        rw [hstep, ih, tagged_cons_str _ s rest hs, tagged_cons_str _ s rest hs,
          tagged_cons_str _ s rest hs]
        cases hk : specClassify s <;> simp [bump] <;> omega
      | undefined => simp [truthy, isString] at hu
      | null => simp [truthy, isString] at hu
      | bool b => simp [truthy, isString] at hu
      | number n => simp [truthy, isString] at hu
      | object => simp [truthy, isString] at hu
    · have hu1 : (truthy u && isString u) = false := by simpa using hu
      have hstep : tallyFrom c (u :: rest) = tallyFrom c rest := by
        show (tallyStep c u >>= fun c1 => tallyFrom c1 rest) = _
        rw [tallyStep_skip c u hu1]
        rfl
      rw [hstep, ih, tagged_cons_skip _ u rest hu1, tagged_cons_skip _ u rest hu1,
        tagged_cons_skip _ u rest hu1]

theorem tallyLoop_eq (urls : List JSVal) :
    tallyLoop urls =
      .ok ⟨tagged .loopback urls, tagged .privateNetwork urls, tagged .global urls⟩ := by
  unfold tallyLoop
  rw [tallyFrom_eq]
  simp

theorem tagged_total (urls : List JSVal) :
    tagged .loopback urls + tagged .privateNetwork urls + tagged .global urls +
      tagged .unknown urls = (stringEntries urls).length := by
  unfold tagged
  induction stringEntries urls with
  | nil => rfl
  | cons s rest ih =>
    simp only [List.countP_cons, List.length_cons]
    cases hk : specClassify s <;> simp <;> omega

theorem tagged_eq_zero_iff (k : Classification) (urls : List JSVal) :
    tagged k urls = 0 ↔ ∀ s, JSVal.str s ∈ urls → s ≠ "" → specClassify s ≠ k := by
  unfold tagged
  rw [List.countP_eq_zero]
  constructor
  · intro h s hs hne
    have := h s ((mem_stringEntries s urls).mpr ⟨hs, hne⟩)
    simpa using this
  · intro h s hs
    obtain ⟨h1, h2⟩ := (mem_stringEntries s urls).mp hs
    simpa using h s h1 h2

/-- C6: after the aggregation pass the three counters are the numbers of
non-empty string entries the classifier of section 4.1 tags Loopback,
PrivateNetwork and Global; a non-empty string entry adds one to the counter of
its tag and to no other, an Unknown entry to none; so the three counters and
the number of Unknown entries add up to the number of non-empty string
entries. -/
theorem tally_counts_match_classifier (urls : List JSVal) :
    tallyLoop urls =
      .ok ⟨tagged .loopback urls, tagged .privateNetwork urls, tagged .global urls⟩ ∧
    (∀ (c : Counts) (s : String), s ≠ "" →
      tallyStep c (.str s) = .ok (bump c (specClassify s))) ∧
    (∀ (c : Counts) (s : String), s ≠ "" → specClassify s = .unknown →
      tallyStep c (.str s) = .ok c) ∧
    tagged .loopback urls + tagged .privateNetwork urls + tagged .global urls +
      tagged .unknown urls = (stringEntries urls).length :=
  ⟨tallyLoop_eq urls, fun c s h => tallyStep_str c s h,
   fun c s h hk => by rw [tallyStep_str c s h, hk]; rfl, tagged_total urls⟩

theorem tally_counts_match_classifier_witness :
    tallyLoop [.str "https://a.com/1.png", .str "http://192.168.1.2/2.png",
      .str "http://192.168.1.3/3.png"] = .ok ⟨0, 2, 1⟩ ∧
    tagged .unknown [.str "https://a.com/1.png", .str "http://192.168.1.2/2.png",
      .str "http://192.168.1.3/3.png"] = 0 ∧
    recommend ⟨0, 2, 1⟩ = .globallyShareable ∧
    (analysis ⟨[.str "https://a.com/1.png", .str "http://192.168.1.2/2.png",
      .str "http://192.168.1.3/3.png"], noFiles⟩).err = none ∧
    [ "\n=== RECOMMENDATIONS ===", "Current Analysis Results:",
      "🎉 EXCELLENT! You have globally shareable URLs",
      "✅ Your images can be accessed from anywhere on the internet" ] <:+
    (analysis ⟨[.str "https://a.com/1.png", .str "http://192.168.1.2/2.png",
      .str "http://192.168.1.3/3.png"], noFiles⟩).out :=
  ⟨(tally_counts_match_classifier [.str "https://a.com/1.png", .str "http://192.168.1.2/2.png",
      .str "http://192.168.1.3/3.png"]).1.trans (by decide),
   by decide, by decide, by decide, by decide⟩

/-! ## The sample display and the run -/

theorem sampleEntry_err (index : Nat) (u : JSVal) :
    (sampleEntry index u).err =
      if truthy u = true ∧ isString u = false
      then some (.typeError "url.includes is not a function") else none := by
  cases u with
  | str s =>
    by_cases hs : s = ""
    · subst hs; rfl
    · rw [sampleEntry_str index s hs]
      simp [isString]
  | undefined => rfl
  | null => rfl
  | bool b => cases b <;> rfl
  | number n =>
    by_cases hn : n = 0
    · subst hn; rfl
    · have ht : truthy (.number n) = true := by simp [truthy, hn]
      unfold sampleEntry
      rw [if_pos ht, sampleStatus_nonString (.number n) rfl]
      simp [ht, isString]
  | object => rfl

theorem sampleFrom_err_none_iff (urls : List JSVal) (index : Nat) :
    (sampleFrom index urls).err = none ↔
      ∀ u ∈ urls, truthy u = true → isString u = true := by
  induction urls generalizing index with
  | nil => simp [sampleFrom]
  | cons u rest ih =>
    have he := sampleEntry_err index u
    unfold sampleFrom
    rcases hentry : sampleEntry index u with ⟨out, err⟩
    rw [hentry] at he
    simp only at he
    by_cases hbad : truthy u = true ∧ isString u = false
    · rw [if_pos hbad] at he
      subst he
      simp only [List.mem_cons, forall_eq_or_imp]
      constructor
      · intro h; cases h
      · rintro ⟨h, _⟩
        have := h hbad.1
        rw [hbad.2] at this
        cases this
    · rw [if_neg hbad] at he
      subst he
      simp only [List.mem_cons, forall_eq_or_imp, ih]
      constructor
      · intro h
        refine ⟨fun ht => ?_, h⟩
        cases hs : isString u
        · exact absurd ⟨ht, hs⟩ hbad
        · rfl
      · rintro ⟨_, h⟩
        exact h

theorem sampleDisplay_err_none_iff (urls : List JSVal) :
    (sampleDisplay urls).err = none ↔
      ∀ u ∈ urls.take 3, truthy u = true → isString u = true :=
  sampleFrom_err_none_iff (urls.take 3) 0

theorem analysis_err (st : Store) : (analysis st).err = (sampleDisplay st.allImageUrls).err := by
  unfold analysis
  rw [tallyLoop_eq]
  simp only
  cases h : (sampleDisplay st.allImageUrls).err <;> rfl

theorem analysis_out (urls : List JSVal) (h : (sampleDisplay urls).err = none) :
    ∃ before : List String, ∀ fs : FsFiles,
      (analysis ⟨urls, fs⟩).out =
        before ++ gridfsSection fs ++
          recommendationSection
            ⟨tagged .loopback urls, tagged .privateNetwork urls, tagged .global urls⟩ := by
  refine ⟨[ "\n=== IMAGE URL ANALYSIS ===",
      "Total unique image URLs: " ++ toString urls.length ] ++
      analysisSummary ⟨tagged .loopback urls, tagged .privateNetwork urls, tagged .global urls⟩ ++
      ["\n=== SAMPLE IMAGE URLS ==="] ++ (sampleDisplay urls).out, fun fs => ?_⟩
  unfold analysis
  rw [tallyLoop_eq]
  simp only [h, fromGridfs, List.append_assoc]

theorem recommend_eq_noImageUrls_iff (c : Counts) :
    recommend c = .noImageUrls ↔
      c.localhostCount = 0 ∧ c.networkCount = 0 ∧ c.globalCount = 0 := by
  unfold recommend
  split_ifs <;> simp <;> omega

/-- C7: the tally pass never throws and a value that is not a string changes
no counter, but the sample display guards with `if (url)` alone: it throws
exactly when one of the first three values is truthy and not a string.  On the
list holding the number `42` the display writes `1. 42`, the call of
`url.includes` is a `TypeError`, and the run ends there, before the GridFS and
recommendation sections. -/
theorem sample_display_throws_on_truthy_non_string :
    (∀ urls : List JSVal, ∃ c, tallyLoop urls = .ok c) ∧
    (∀ (c : Counts) (url : JSVal), isString url = false → tallyStep c url = .ok c) ∧
    (∀ urls : List JSVal, (sampleDisplay urls).err = none ↔
      ∀ u ∈ urls.take 3, truthy u = true → isString u = true) ∧
    tallyLoop [.number 42] = .ok ⟨0, 0, 0⟩ ∧
    sampleDisplay [.number 42] =
      ⟨["1. 42"], some (.typeError "url.includes is not a function")⟩ ∧
    (analysis ⟨[.number 42], noFiles⟩).err =
      some (.typeError "url.includes is not a function") ∧
    "\n=== RECOMMENDATIONS ===" ∉ (analysis ⟨[.number 42], noFiles⟩).out :=
  ⟨fun urls => ⟨_, tallyLoop_eq urls⟩, tallyStep_nonString, sampleDisplay_err_none_iff,
   by decide, by decide, by decide, by decide⟩

/-- C8: when a query of the GridFS section raises, the exception is caught in
the section, which ends with the line `GridFS not found or no files`; the run
ends exactly as it does with an empty collection (the failure never ends it),
and every run that comes to the GridFS section goes on to its end: the
counters are those of the tally loop, and the console differs from the one of
the empty collection in the GridFS section only, with the same
recommendations section after it. -/
theorem gridfs_failure_is_contained (fs : FsFiles) (h : QueryRaises fs) :
    (∃ printed : List String, gridfsSection fs =
        ["\n=== GRIDFS INFO ==="] ++ printed ++ ["GridFS not found or no files"]) ∧
    (∀ urls : List JSVal, (analysis ⟨urls, fs⟩).err = (analysis ⟨urls, noFiles⟩).err) ∧
    (∀ urls : List JSVal, (sampleDisplay urls).err = none →
      (analysis ⟨urls, fs⟩).err = none ∧
      ∃ (c : Counts) (before : List String), tallyLoop urls = .ok c ∧
        (analysis ⟨urls, fs⟩).out =
          before ++ gridfsSection fs ++ recommendationSection c ∧
        (analysis ⟨urls, noFiles⟩).out =
          before ++ ["\n=== GRIDFS INFO ===", "GridFS files stored: 0"] ++
            recommendationSection c) := by
  refine ⟨?_, fun urls => ?_, fun urls hs => ⟨?_, ?_⟩⟩
  · rcases h with ⟨e, he⟩ | ⟨n, e, hn, hpos, he⟩
    · refine ⟨[], ?_⟩
      unfold gridfsSection gridfsTry
      rw [he]
      rfl
    · refine ⟨["GridFS files stored: " ++ toString n, "Sample GridFS files:"] ++
        (fs.sampleDocs.take 3).map
          (fun file => "- " ++ file.filename ++ " (" ++ file.uploadDate ++ ")"), ?_⟩
      unfold gridfsSection gridfsTry
      rw [hn]
      simp only [gt_iff_lt, hpos, if_true, he, List.append_assoc]
  · rw [analysis_err, analysis_err]
  · rw [analysis_err]
    exact hs
  · obtain ⟨before, hb⟩ := analysis_out urls hs
    exact ⟨_, before, tallyLoop_eq urls, hb fs, hb noFiles⟩

theorem gridfs_failure_is_contained_witness :
    (QueryRaises ⟨.error (.storeError "ns not found"), [], none⟩ ∧
      (analysis ⟨[.str "http://192.168.1.2/2.png"],
        ⟨.error (.storeError "ns not found"), [], none⟩⟩).err = none) ∧
    (QueryRaises ⟨.ok 2, [⟨"a.png", "2024-01-01"⟩], some (.storeError "cursor lost")⟩ ∧
      ∃ printed : List String,
        gridfsSection ⟨.ok 2, [⟨"a.png", "2024-01-01"⟩], some (.storeError "cursor lost")⟩ =
          ["\n=== GRIDFS INFO ==="] ++ printed ++ ["GridFS not found or no files"]) :=
  ⟨⟨Or.inl ⟨_, rfl⟩,
    ((gridfs_failure_is_contained ⟨.error (.storeError "ns not found"), [], none⟩
      (Or.inl ⟨_, rfl⟩)).2.2 [.str "http://192.168.1.2/2.png"] (by decide)).1⟩,
   ⟨Or.inr ⟨2, _, rfl, by decide, rfl⟩,
    (gridfs_failure_is_contained
      ⟨.ok 2, [⟨"a.png", "2024-01-01"⟩], some (.storeError "cursor lost")⟩
      (Or.inr ⟨2, _, rfl, by decide, rfl⟩)).1⟩⟩

/-- C10: the recommendation chain, on the counters the tally loop leaves, takes
the `No image URLs found` branch exactly when no non-empty string entry of the
list contains any of the six markers, and every run that passes the sample
display ends with the recommendations section of those counters: so the
message ends the run for the empty list and for the list holding
`http://example.com/a.png`.  But the message is not produced for every such
list: on the list holding the number `42` no string entry contains a marker,
the counters are all `0` and the chain would take the `No image URLs found`
branch, yet the run ends in the sample display with a `TypeError` and the
message is never written. -/
theorem no_image_urls_message_lost_on_truthy_non_string :
    (∀ urls : List JSVal, ∃ c, tallyLoop urls = .ok c ∧
      (recommend c = .noImageUrls ↔
        ∀ s, JSVal.str s ∈ urls → s ≠ "" →
          (¬ Contains s "localhost" ∧ ¬ Contains s "127.0.0.1" ∧ ¬ Contains s "192.168." ∧
            ¬ Contains s "10.0." ∧ ¬ Contains s "172." ∧ ¬ Contains s "https://"))) ∧
    (∀ (urls : List JSVal) (fs : FsFiles), (sampleDisplay urls).err = none →
      ∃ c, tallyLoop urls = .ok c ∧ (analysis ⟨urls, fs⟩).err = none ∧
        recommendationLines (recommend c) <:+ (analysis ⟨urls, fs⟩).out) ∧
    ((analysis ⟨[], noFiles⟩).err = none ∧
      recommendationLines .noImageUrls <:+ (analysis ⟨[], noFiles⟩).out) ∧
    ((analysis ⟨[.str "http://example.com/a.png"], noFiles⟩).err = none ∧
      recommendationLines .noImageUrls <:+
        (analysis ⟨[.str "http://example.com/a.png"], noFiles⟩).out) ∧
    ((∀ s, JSVal.str s ∈ [JSVal.number 42] → s ≠ "" →
        (¬ Contains s "localhost" ∧ ¬ Contains s "127.0.0.1" ∧ ¬ Contains s "192.168." ∧
          ¬ Contains s "10.0." ∧ ¬ Contains s "172." ∧ ¬ Contains s "https://")) ∧
      tallyLoop [.number 42] = .ok ⟨0, 0, 0⟩ ∧
      recommend ⟨0, 0, 0⟩ = .noImageUrls ∧
      analysis ⟨[.number 42], noFiles⟩ =
        ⟨[ "\n=== IMAGE URL ANALYSIS ===",
           "Total unique image URLs: 1",
           "URL Shareability Analysis:",
           "❌ Localhost URLs (not shareable): 0",
           "⚠️  Local network URLs (WiFi network only): 0",
           "✅ Global URLs (internet accessible): 0",
           "",
           "📖 URL Shareability Guide:",
           "• Localhost (127.0.0.1, localhost) = Only your computer",
           "• Local Network (192.168.x.x) = Same WiFi network",
           "• Global (https://domain.com) = Anywhere on internet",
           "\n=== SAMPLE IMAGE URLS ===",
           "1. 42" ],
         some (.typeError "url.includes is not a function")⟩ ∧
      "❓ No image URLs found. Try uploading some items with images first." ∉
        (analysis ⟨[.number 42], noFiles⟩).out ∧
      ¬ (recommendationLines .noImageUrls <:+ (analysis ⟨[.number 42], noFiles⟩).out)) := by
  refine ⟨fun urls => ⟨_, tallyLoop_eq urls, ?_⟩, fun urls fs hs => ⟨_, tallyLoop_eq urls, ?_, ?_⟩,
    ⟨by decide, by decide⟩, ⟨by decide, by decide⟩,
    ⟨fun s hs => by simp at hs, by decide, by decide, by decide, by decide, by decide⟩⟩
  · rw [recommend_eq_noImageUrls_iff]
    simp only [tagged_eq_zero_iff, ← specClassify_unknown_iff]
    constructor
    · rintro ⟨h1, h2, h3⟩ s hs hne
      have a1 := h1 s hs hne
      have a2 := h2 s hs hne
      have a3 := h3 s hs hne
      cases hk : specClassify s <;> simp_all
    · intro h
      refine ⟨fun s hs hne => ?_, fun s hs hne => ?_, fun s hs hne => ?_⟩ <;>
        rw [h s hs hne] <;> decide
  · rw [analysis_err]
    exact hs
  · obtain ⟨before, hb⟩ := analysis_out urls hs
    rw [hb fs]
    unfold recommendationSection
    exact ⟨before ++ gridfsSection fs ++ ["\n=== RECOMMENDATIONS ===", "Current Analysis Results:"],
      by simp⟩

end CheckImageUrls
